import Mathlib

/-!
# Interrupt counter with switch poll

A shallow embedding of `interrupt_counter_with_switch_poll.c`: the shared
state of the program, the button interrupt handler, the timer interrupt
handler and one iteration of the polling loop of `main`.

Conventions of the embedding.

* A C `int` is an `Int`; every arithmetic result (`+`, `++`, `*`) is brought
  back into the signed 32-bit range by `wrap32` (wrap-around, as on the
  target).  The program only ever compares ints with `==` and `!=`.
* The switch word and the interrupt status word are only used through `&`
  and equality, so they are kept as the bit pattern read from the
  register (`Nat`, with `&&&`).
* What the hardware answers (interrupt status, button value, timer-expired
  flag, switch value) is an argument of the handler that asks for it.
* `XGpio_InterruptClear` and `XTmrCtr_Reset` act on device registers whose
  content only comes back as such an answer, so they leave no trace in the
  state; `xil_printf` output is not part of the model.
-/

namespace InterruptCounter

/-! ## Constants -/

/-- Scales expirations (`#define EXPIRATION_SCALE 8`). -/
def EXPIRATION_SCALE : Int := 8

/-- Default number of interrupts for LED count incrementing. -/
def DEFAULT_N_EXPIRES : Int := 3

/-- The maximum allowed number of expires. -/
def MAX_N_EXPIRES : Int := 7

/-- Button to increase the expiration (`0b0010`). -/
def BTN_INC_EXPIRES : Int := 2

/-- Switch to disable button interrupts (`0b0001`). -/
def SWC_DISABLE_BTNS : Nat := 1

/-- Switch to enable the increment expirations button (`0b0010`). -/
def SWC_ENABLE_INC_BTN : Nat := 2

/-- The source has `#define BTN_INT XGPIO_IR_CH1_MASK`; the mask comes from
the vendor header `xgpio_l.h`, which is not among the sources, where it is
the channel 1 bit `0x1`. -/
def BTN_INT : Nat := 1

/-! ## Data model -/

/-- The anonymous enum of `is_inc_enabled`. -/
inductive IncEnabled where
  | YES
  | NO
deriving DecidableEq

/-- The anonymous enum of `dbn_state`. -/
inductive DbnState where
  | NOT_DEBOUNCING
  | DEBOUNCING
deriving DecidableEq

/-- Wrap-around reduction of an integer to the range of a signed 32-bit `int`. -/
def wrap32 (x : Int) : Int := (x + 2147483648) % 4294967296 - 2147483648

/-- The file-scope variables of the program, the local `swc_value` of `main`
that survives from one loop iteration to the next, and the three pieces of
device state the handlers drive: the value last written to the LED channel,
the channel 1 interrupt-enable bit of the button GPIO, and whether the timer
is running. -/
structure State where
  led_data : Int
  btn_value : Int
  tmr_count : Int
  n_expires : Int
  is_inc_enabled : IncEnabled
  dbn_state : DbnState
  dbn_tmr_count : Int
  swc_value : Nat
  led_out : Int
  btn_int_enabled : Bool
  tmr_running : Bool
deriving DecidableEq

/-! ## The handlers -/

/-- The button handler, lines 112-146.  `status` is what
`XGpio_InterruptGetStatus` returns and `v` the value `XGpio_DiscreteRead`
delivers into `btn_value`. -/
def BTN_Intr_Handler (s : State) (status : Nat) (v : Int) : State :=
  -- XGpio_InterruptDisable(&BTNInst, BTN_INT);
  let s1 := { s with btn_int_enabled := false }
  if status &&& BTN_INT ≠ BTN_INT then
    s1
  else
    -- btn_value = XGpio_DiscreteRead(&BTNInst, 1);
    let s2 := { s1 with btn_value := v }
    if s2.is_inc_enabled = IncEnabled.YES
        ∧ s2.btn_value = BTN_INC_EXPIRES
        ∧ s2.n_expires ≠ MAX_N_EXPIRES then
      { s2 with dbn_state := DbnState.DEBOUNCING, dbn_tmr_count := s2.tmr_count }
    else
      -- led_data = led_data + btn_value;
      let s3 := { s2 with led_data := wrap32 (s2.led_data + s2.btn_value) }
      -- XGpio_DiscreteWrite(&LEDInst, 1, led_data); XGpio_InterruptEnable(...)
      { s3 with led_out := s3.led_data, btn_int_enabled := true }

/-- The debounce check of the timer handler, the `switch (dbn_state)` of
lines 155-174. -/
def checkDebounce (s : State) : State :=
  match s.dbn_state with
  | DbnState.DEBOUNCING =>
    if s.tmr_count ≠ s.dbn_tmr_count then
      if s.btn_value = BTN_INC_EXPIRES then
        { s with
          dbn_state := DbnState.NOT_DEBOUNCING
          n_expires := wrap32 (s.n_expires + 1)
          btn_int_enabled := true }
      else s
    else s
  | _ => s

/-- The roll-over step of the timer handler, lines 179-185. -/
def countExpiration (s : State) : State :=
  if s.tmr_count = wrap32 (s.n_expires * EXPIRATION_SCALE) then
    let s1 := { s with tmr_count := 0, led_data := wrap32 (s.led_data + 1) }
    { s1 with led_out := s1.led_data }
  else
    { s with tmr_count := wrap32 (s.tmr_count + 1) }

/-- The timer handler, lines 148-190.  `expired` is what
`XTmrCtr_IsExpired` returns. -/
def TMR_Intr_Handler (s : State) (expired : Bool) : State :=
  if expired then
    -- XTmrCtr_Stop(&TMRInst,0);
    let s1 := { s with tmr_running := false }
    let s2 := checkDebounce s1
    let s3 := countExpiration s2
    -- XTmrCtr_Reset(&TMRInst,0); XTmrCtr_Start(&TMRInst,0);
    { s3 with tmr_running := true }
  else s

/-- One iteration of the `while(1)` loop of `main`, lines 251-286.
`next_swc_value` is what `XGpio_DiscreteRead(&SWCInst, 1)` returns. -/
def main_loop_body (s : State) (next_swc_value : Nat) : State :=
  let s1 :=
    if s.swc_value ≠ next_swc_value then
      let t := { s with swc_value := next_swc_value }
      if t.swc_value &&& SWC_DISABLE_BTNS = 0 then
        { t with btn_int_enabled := true }
      else t
    else s
  let s2 :=
    if s1.swc_value &&& SWC_DISABLE_BTNS = SWC_DISABLE_BTNS then
      { s1 with btn_int_enabled := false, n_expires := DEFAULT_N_EXPIRES, led_data := 0 }
    else s1
  if s2.swc_value &&& SWC_ENABLE_INC_BTN = SWC_ENABLE_INC_BTN then
    { s2 with is_inc_enabled := IncEnabled.YES }
  else if s2.swc_value &&& SWC_ENABLE_INC_BTN = 0 then
    { s2 with is_inc_enabled := IncEnabled.NO }
  else s2

/-! ## Runs -/

/-- The state when the polling loop is entered: the static initialisers of
lines 84-93, `n_expires = DEFAULT_N_EXPIRES` (line 205), the first switch
read `swc0` (line 226), the button interrupt enabled by
`InterruptSystemSetup` and the timer started (line 243).  `led0` is whatever
the LED channel shows before the first write. -/
def initState (swc0 : Nat) (led0 : Int) : State :=
  { led_data := 0
    btn_value := 0
    tmr_count := 0
    n_expires := DEFAULT_N_EXPIRES
    is_inc_enabled := IncEnabled.NO
    dbn_state := DbnState.NOT_DEBOUNCING
    dbn_tmr_count := 0
    swc_value := swc0
    led_out := led0
    btn_int_enabled := true
    tmr_running := true }

/-- What can happen to the shared state: a button interrupt, a timer
interrupt, or one iteration of the polling loop, each with the values the
hardware answers. -/
inductive Event where
  | btn (status : Nat) (v : Int)
  | tmr (expired : Bool)
  | poll (next_swc_value : Nat)
deriving DecidableEq

/-- One event applied to a state. -/
def step (s : State) : Event → State
  | Event.btn status v => BTN_Intr_Handler s status v
  | Event.tmr expired => TMR_Intr_Handler s expired
  | Event.poll w => main_loop_body s w

/-- A finite interleaving of events, applied from left to right. -/
def run (s : State) (es : List Event) : State := es.foldl step s

/-- The state after `k` expired invocations of the timer handler in a row. -/
def ticks : Nat → State → State
  | 0, s => s
  | k + 1, s => ticks k (TMR_Intr_Handler s true)

/-! ## Invariants, relations and sample states used by the theorems -/

/-- The threshold stays in range, and debouncing is only ever pending below
the maximum. -/
def ThresholdInv (s : State) : Prop :=
  DEFAULT_N_EXPIRES ≤ s.n_expires ∧ s.n_expires ≤ MAX_N_EXPIRES
  ∧ (s.dbn_state = DbnState.DEBOUNCING → s.n_expires ≠ MAX_N_EXPIRES)

/-- The threshold invariant together with the bound of the tick counter. -/
def CounterInv (s : State) : Prop :=
  ThresholdInv s ∧ 0 ≤ s.tmr_count ∧ s.tmr_count ≤ s.n_expires * EXPIRATION_SCALE

/-- Whether an event takes the reset branch of the polling loop (lines 264-272). -/
def Event.resets : Event → Bool
  | Event.poll w => w &&& SWC_DISABLE_BTNS == SWC_DISABLE_BTNS
  | _ => false

/-- The initial state after one loop iteration that reads the switch word
`0b0010`: the increment button is enabled, the threshold is 3. -/
def pressedState : State := main_loop_body (initState 0 0) SWC_ENABLE_INC_BTN

/-- A reachable state in `DEBOUNCING` whose debounce marker is 1: the
increment button is enabled, one tick passes, the button is pressed. -/
def lateDebouncingState : State :=
  run (initState 0 0)
    [Event.poll SWC_ENABLE_INC_BTN, Event.tmr true, Event.btn BTN_INT BTN_INC_EXPIRES]

/-- A state with the threshold at its maximum and the increment button
enabled. -/
def atMaxState : State :=
  { initState SWC_ENABLE_INC_BTN 0 with
    n_expires := MAX_N_EXPIRES
    is_inc_enabled := IncEnabled.YES }

/-- A state with threshold 0 and tick counter 0 (not reachable; it shows why
the confirmation theorem asks for a positive threshold). -/
def zeroThresholdState : State :=
  { initState SWC_ENABLE_INC_BTN 0 with
    n_expires := 0
    is_inc_enabled := IncEnabled.YES }

/-- A run that raises the threshold to 4, lets the tick counter pass 24 and
then resets the threshold through the disable switch. -/
def slowThenReset : List Event :=
  [Event.poll SWC_ENABLE_INC_BTN, Event.btn BTN_INT BTN_INC_EXPIRES]
    ++ List.replicate 25 (Event.tmr true) ++ [Event.poll SWC_DISABLE_BTNS]

/-- Whether every button interrupt of a run is taken in a state where the
channel 1 interrupt of the button GPIO is enabled. -/
def firesOnlyWhenEnabled : State → List Event → Bool
  | _, [] => true
  | s, e :: es =>
    (match e with
      | Event.btn _ _ => s.btn_int_enabled
      | _ => true) && firesOnlyWhenEnabled (step s e) es

/-- Whether no loop iteration of a run reaches the `XGpio_InterruptEnable` of
line 260 while a press is being debounced: in `DEBOUNCING` an iteration
reads the stored switch value again or a value whose `SWC_DISABLE_BTNS`
bit is not clear. -/
def pollsKeepMask : State → List Event → Bool
  | _, [] => true
  | s, e :: es =>
    (match e with
      | Event.poll w =>
        decide (s.dbn_state = DbnState.NOT_DEBOUNCING ∨ s.swc_value = w
                ∨ w &&& SWC_DISABLE_BTNS ≠ 0)
      | _ => true) && pollsKeepMask (step s e) es

/-- Whether an event is an iteration of the polling loop. -/
def Event.isPoll : Event → Bool
  | Event.poll _ => true
  | _ => false

/-- While debouncing the input snapshot is the increment value and the
button interrupt is masked. -/
def MaskInv (s : State) : Prop :=
  s.dbn_state = DbnState.DEBOUNCING →
    s.btn_value = BTN_INC_EXPIRES ∧ s.btn_int_enabled = false

/-- The condition under which an expired tick confirms a press (lines 155-161). -/
@[reducible]
def confirmsPress (s : State) : Prop :=
  s.dbn_state = DbnState.DEBOUNCING ∧ s.tmr_count ≠ s.dbn_tmr_count
  ∧ s.btn_value = BTN_INC_EXPIRES

/-- The threshold after the debounce check of an expired tick. -/
def thresholdAfterCheck (s : State) : Int :=
  if confirmsPress s then wrap32 (s.n_expires + 1) else s.n_expires

/-- Whether an expired tick rolls the tick counter over (line 179, with the
threshold as the debounce check left it). -/
@[reducible]
def rollsOver (s : State) : Prop :=
  s.tmr_count = wrap32 (thresholdAfterCheck s * EXPIRATION_SCALE)

/-- A run in which the button is pressed, the buttons are switched off and on
again while the press is still being debounced, and a second button
interrupt then reads `0b0001`. -/
def offOnWhileDebouncing : List Event :=
  [Event.poll SWC_ENABLE_INC_BTN, Event.btn BTN_INT BTN_INC_EXPIRES,
    Event.poll (SWC_DISABLE_BTNS ||| SWC_ENABLE_INC_BTN), Event.poll SWC_ENABLE_INC_BTN,
    Event.btn BTN_INT 1]

/-! ## Supporting lemmas -/

theorem wrap32_of_range (x : Int) (h1 : -2147483648 ≤ x) (h2 : x < 2147483648) :
    wrap32 x = x := by
  unfold wrap32; omega

theorem wrap32_wrap32_add (x y : Int) : wrap32 (wrap32 x + y) = wrap32 (x + y) := by
  unfold wrap32; omega

theorem ticks_succ (k : Nat) (s : State) :
    ticks (k + 1) s = TMR_Intr_Handler (ticks k s) true := by
  induction k generalizing s with
  | zero => rfl
  | succ k ih =>
    show ticks (k + 1) (TMR_Intr_Handler s true) = _
    rw [ih]
    rfl

theorem ticks_add (j k : Nat) (s : State) : ticks (j + k) s = ticks k (ticks j s) := by
  induction j generalizing s with
  | zero => simp [ticks]
  | succ j ih =>
    have : j + 1 + k = (j + k) + 1 := by omega
    rw [this]
    show ticks (j + k) (TMR_Intr_Handler s true) = ticks k (ticks j (TMR_Intr_Handler s true))
    exact ih _

/-- An expired tick outside debouncing only runs the roll-over step. -/
theorem TMR_not_debouncing (s : State) (h : s.dbn_state = DbnState.NOT_DEBOUNCING) :
    (TMR_Intr_Handler s true).dbn_state = DbnState.NOT_DEBOUNCING
    ∧ (TMR_Intr_Handler s true).n_expires = s.n_expires
    ∧ (TMR_Intr_Handler s true).btn_value = s.btn_value
    ∧ (TMR_Intr_Handler s true).tmr_count =
        (if s.tmr_count = wrap32 (s.n_expires * EXPIRATION_SCALE) then 0
         else wrap32 (s.tmr_count + 1))
    ∧ (TMR_Intr_Handler s true).led_data =
        (if s.tmr_count = wrap32 (s.n_expires * EXPIRATION_SCALE) then wrap32 (s.led_data + 1)
         else s.led_data) := by
  simp only [TMR_Intr_Handler, checkDebounce, countExpiration, h, if_true]
  split <;> simp_all

theorem ticks_not_debouncing (k : Nat) (s : State)
    (h : s.dbn_state = DbnState.NOT_DEBOUNCING) :
    (ticks k s).dbn_state = DbnState.NOT_DEBOUNCING
    ∧ (ticks k s).n_expires = s.n_expires := by
  induction k generalizing s with
  | zero => exact ⟨h, rfl⟩
  | succ k ih =>
    obtain ⟨h1, h2, -⟩ := TMR_not_debouncing s h
    obtain ⟨h3, h4⟩ := ih (TMR_Intr_Handler s true) h1
    exact ⟨h3, h4.trans h2⟩

/-- The timer handler never writes the input snapshot. -/
theorem TMR_btn_value (s : State) (e : Bool) :
    (TMR_Intr_Handler s e).btn_value = s.btn_value := by
  unfold TMR_Intr_Handler checkDebounce countExpiration
  cases e <;> simp only [Bool.false_eq_true, if_false, if_true]
  split <;> split <;> (try split) <;> (try split) <;> rfl

/-- While the input snapshot differs from the increment value a tick changes
neither the threshold nor the debounce state. -/
theorem TMR_released (s : State) (e : Bool) (h : s.btn_value ≠ BTN_INC_EXPIRES) :
    (TMR_Intr_Handler s e).n_expires = s.n_expires
    ∧ (TMR_Intr_Handler s e).dbn_state = s.dbn_state := by
  unfold TMR_Intr_Handler checkDebounce countExpiration
  cases e <;> simp only [Bool.false_eq_true, if_false, if_true, h, and_self]
  split <;> split <;> (try split) <;> simp_all

theorem ticks_released (k : Nat) (s : State) (h : s.btn_value ≠ BTN_INC_EXPIRES) :
    (ticks k s).n_expires = s.n_expires ∧ (ticks k s).dbn_state = s.dbn_state := by
  induction k generalizing s with
  | zero => exact ⟨rfl, rfl⟩
  | succ k ih =>
    have hb : (TMR_Intr_Handler s true).btn_value ≠ BTN_INC_EXPIRES := by
      rw [TMR_btn_value]; exact h
    obtain ⟨h1, h2⟩ := TMR_released s true h
    obtain ⟨h3, h4⟩ := ih (TMR_Intr_Handler s true) hb
    exact ⟨h3.trans h1, h4.trans h2⟩

/-- A tick in `DEBOUNCING` taken at the very count at which debouncing began
only advances the tick counter. -/
theorem TMR_debouncing_wait (s : State) (hd : s.dbn_state = DbnState.DEBOUNCING)
    (ht : s.tmr_count = s.dbn_tmr_count) :
    (TMR_Intr_Handler s true).dbn_state = DbnState.DEBOUNCING
    ∧ (TMR_Intr_Handler s true).n_expires = s.n_expires
    ∧ (TMR_Intr_Handler s true).dbn_tmr_count = s.dbn_tmr_count
    ∧ (TMR_Intr_Handler s true).tmr_count =
        (if s.tmr_count = wrap32 (s.n_expires * EXPIRATION_SCALE) then 0
         else wrap32 (s.tmr_count + 1)) := by
  simp only [TMR_Intr_Handler, checkDebounce, countExpiration, hd, ht, if_true, ne_eq,
    not_true_eq_false, if_false]
  split <;> simp_all

/-- A tick in `DEBOUNCING` at a later count, with the increment value still in
the input snapshot, confirms the press. -/
theorem TMR_debouncing_confirm (s : State) (hd : s.dbn_state = DbnState.DEBOUNCING)
    (ht : s.tmr_count ≠ s.dbn_tmr_count) (hb : s.btn_value = BTN_INC_EXPIRES) :
    (TMR_Intr_Handler s true).dbn_state = DbnState.NOT_DEBOUNCING
    ∧ (TMR_Intr_Handler s true).n_expires = wrap32 (s.n_expires + 1)
    ∧ (TMR_Intr_Handler s true).btn_int_enabled = true := by
  simp only [TMR_Intr_Handler, checkDebounce, countExpiration, hd, ht, hb, if_true, ne_eq,
    not_false_eq_true]
  split <;> simp_all

/-- The debounce-entry path of the button handler. -/
theorem BTN_enter_debouncing (s : State) (status : Nat)
    (hst : status &&& BTN_INT = BTN_INT) (hinc : s.is_inc_enabled = IncEnabled.YES)
    (hmax : s.n_expires ≠ MAX_N_EXPIRES) :
    BTN_Intr_Handler s status BTN_INC_EXPIRES =
      { s with
        btn_int_enabled := false
        btn_value := BTN_INC_EXPIRES
        dbn_state := DbnState.DEBOUNCING
        dbn_tmr_count := s.tmr_count } := by
  simp [BTN_Intr_Handler, hst, hinc, hmax]

/-- The other path of the button handler. -/
theorem BTN_no_debounce (s : State) (status : Nat) (v : Int)
    (hst : status &&& BTN_INT = BTN_INT)
    (hno : ¬ (s.is_inc_enabled = IncEnabled.YES ∧ v = BTN_INC_EXPIRES
              ∧ s.n_expires ≠ MAX_N_EXPIRES)) :
    BTN_Intr_Handler s status v =
      { s with
        btn_value := v
        led_data := wrap32 (s.led_data + v)
        led_out := wrap32 (s.led_data + v)
        btn_int_enabled := true } := by
  simp only [BTN_Intr_Handler, hst, ne_eq, not_true_eq_false, if_false]
  rw [if_neg hno]

/-- The button handler writes neither the tick counter nor the threshold. -/
theorem BTN_counters (s : State) (status : Nat) (v : Int) :
    (BTN_Intr_Handler s status v).tmr_count = s.tmr_count
    ∧ (BTN_Intr_Handler s status v).n_expires = s.n_expires := by
  unfold BTN_Intr_Handler
  simp only
  split
  · exact ⟨rfl, rfl⟩
  · split <;> exact ⟨rfl, rfl⟩

/-- One loop iteration, field by field. -/
theorem main_loop_body_eq (s : State) (w : Nat) :
    main_loop_body s w =
      { s with
        swc_value := w
        btn_int_enabled :=
          if w &&& SWC_DISABLE_BTNS = SWC_DISABLE_BTNS then false
          else if s.swc_value ≠ w ∧ w &&& SWC_DISABLE_BTNS = 0 then true
          else s.btn_int_enabled
        n_expires :=
          if w &&& SWC_DISABLE_BTNS = SWC_DISABLE_BTNS then DEFAULT_N_EXPIRES else s.n_expires
        led_data :=
          if w &&& SWC_DISABLE_BTNS = SWC_DISABLE_BTNS then 0 else s.led_data
        is_inc_enabled :=
          if w &&& SWC_ENABLE_INC_BTN = SWC_ENABLE_INC_BTN then IncEnabled.YES
          else if w &&& SWC_ENABLE_INC_BTN = 0 then IncEnabled.NO
          else s.is_inc_enabled } := by
  obtain ⟨ld, bv, tc, ne, ie, ds, dc, sv, lo, bi, tr⟩ := s
  unfold main_loop_body
  by_cases hA : sv = w
  · subst hA
    by_cases hB : sv &&& SWC_DISABLE_BTNS = 0 <;>
    by_cases hC : sv &&& SWC_DISABLE_BTNS = SWC_DISABLE_BTNS <;>
    by_cases hD : sv &&& SWC_ENABLE_INC_BTN = SWC_ENABLE_INC_BTN <;>
    by_cases hE : sv &&& SWC_ENABLE_INC_BTN = 0 <;>
    simp_all [SWC_DISABLE_BTNS, SWC_ENABLE_INC_BTN]
  · by_cases hB : w &&& SWC_DISABLE_BTNS = 0 <;>
    by_cases hC : w &&& SWC_DISABLE_BTNS = SWC_DISABLE_BTNS <;>
    by_cases hD : w &&& SWC_ENABLE_INC_BTN = SWC_ENABLE_INC_BTN <;>
    by_cases hE : w &&& SWC_ENABLE_INC_BTN = 0 <;>
    simp_all [SWC_DISABLE_BTNS, SWC_ENABLE_INC_BTN]

/-! ### Preservation of the invariants -/

theorem ThresholdInv_BTN (s : State) (status : Nat) (v : Int) (h : ThresholdInv s) :
    ThresholdInv (BTN_Intr_Handler s status v) := by
  obtain ⟨h1, h2, h3⟩ := h
  unfold BTN_Intr_Handler
  simp only
  split
  · exact ⟨h1, h2, h3⟩
  · split
    · next hc => exact ⟨h1, h2, fun _ => hc.2.2⟩
    · exact ⟨h1, h2, h3⟩

theorem ThresholdInv_TMR (s : State) (e : Bool) (h : ThresholdInv s) :
    ThresholdInv (TMR_Intr_Handler s e) := by
  obtain ⟨h1, h2, h3⟩ := h
  unfold DEFAULT_N_EXPIRES at h1
  unfold MAX_N_EXPIRES at h2 h3
  unfold TMR_Intr_Handler checkDebounce countExpiration ThresholdInv DEFAULT_N_EXPIRES
    MAX_N_EXPIRES
  cases e <;> simp only [Bool.false_eq_true, if_false, if_true]
  · exact ⟨h1, h2, h3⟩
  · cases hd : s.dbn_state with
    | NOT_DEBOUNCING =>
      simp only [hd] at h3 ⊢
      split <;> simp_all
    | DEBOUNCING =>
      have h4 := h3 hd
      simp only [hd]
      split <;> split <;> (try split) <;> simp_all [wrap32] <;> omega

theorem ThresholdInv_poll (s : State) (w : Nat) (h : ThresholdInv s) :
    ThresholdInv (main_loop_body s w) := by
  obtain ⟨h1, h2, h3⟩ := h
  unfold main_loop_body ThresholdInv
  simp only
  split <;> split <;> (try split) <;> (try split) <;> (try split) <;>
    simp_all [DEFAULT_N_EXPIRES, MAX_N_EXPIRES]

theorem ThresholdInv_run (es : List Event) (s : State) (h : ThresholdInv s) :
    ThresholdInv (run s es) := by
  induction es generalizing s with
  | nil => exact h
  | cons e es ih =>
    show ThresholdInv (run (step s e) es)
    apply ih
    cases e with
    | btn status v => exact ThresholdInv_BTN s status v h
    | tmr expired => exact ThresholdInv_TMR s expired h
    | poll w => exact ThresholdInv_poll s w h

theorem TMR_tmr_count_bound (s : State) (e : Bool) (h : CounterInv s) :
    0 ≤ (TMR_Intr_Handler s e).tmr_count
    ∧ (TMR_Intr_Handler s e).tmr_count
        ≤ (TMR_Intr_Handler s e).n_expires * EXPIRATION_SCALE := by
  obtain ⟨⟨h1, h2, h3⟩, h4, h5⟩ := h
  obtain ⟨ld, bv, tc, ne, ie, ds, dc, sv, lo, bi, tr⟩ := s
  simp only [DEFAULT_N_EXPIRES, MAX_N_EXPIRES, EXPIRATION_SCALE] at h1 h2 h3 h4 h5
  unfold TMR_Intr_Handler checkDebounce countExpiration
  cases e <;> simp only [Bool.false_eq_true, if_false, if_true, EXPIRATION_SCALE]
  · exact ⟨h4, h5⟩
  · cases ds <;> simp only
    · split <;> simp only [wrap32] at * <;> constructor <;> omega
    · have h6 := h3 rfl
      by_cases c1 : tc = dc <;> by_cases c2 : bv = BTN_INC_EXPIRES <;>
        simp only [c1, c2, ne_eq, not_true_eq_false, not_false_eq_true, if_true, if_false] <;>
        split <;> simp only [wrap32] at * <;> constructor <;> omega

theorem CounterInv_step (s : State) (e : Event) (hr : e.resets = false) (h : CounterInv s) :
    CounterInv (step s e) := by
  cases e with
  | btn status v =>
    refine ⟨ThresholdInv_BTN s status v h.1, ?_⟩
    obtain ⟨-, h4, h5⟩ := h
    obtain ⟨e1, e2⟩ := BTN_counters s status v
    show 0 ≤ (BTN_Intr_Handler s status v).tmr_count
      ∧ (BTN_Intr_Handler s status v).tmr_count
          ≤ (BTN_Intr_Handler s status v).n_expires * EXPIRATION_SCALE
    rw [e1, e2]
    exact ⟨h4, h5⟩
  | tmr expired =>
    exact ⟨ThresholdInv_TMR s expired h.1, TMR_tmr_count_bound s expired h⟩
  | poll w =>
    refine ⟨ThresholdInv_poll s w h.1, ?_⟩
    obtain ⟨-, h4, h5⟩ := h
    have hw : ¬ (w &&& SWC_DISABLE_BTNS = SWC_DISABLE_BTNS) := by
      simpa [Event.resets] using hr
    show 0 ≤ (main_loop_body s w).tmr_count
      ∧ (main_loop_body s w).tmr_count ≤ (main_loop_body s w).n_expires * EXPIRATION_SCALE
    rw [main_loop_body_eq]
    simp only [if_neg hw]
    exact ⟨h4, h5⟩

/-- Claim C1, as the code behaves: from a state with `tmr_count = 0`,
`NOT_DEBOUNCING` and threshold `n` in `[3,7]`, after `k` expired timer
interrupts in a row the tick counter is `k mod (n*8 + 1)` and `led_data` is the
starting value plus `k / (n*8 + 1)`.  The roll-over period is `n*8 + 1` ticks,
not `n*8`: after exactly `n*8` ticks `led_data` is unchanged and `tmr_count` is
`n*8`. -/
theorem tmr_rollover_period (s : State) (n : Nat) (h3 : 3 ≤ n) (h7 : n ≤ 7)
    (hn : s.n_expires = (n : Int)) (hd : s.dbn_state = DbnState.NOT_DEBOUNCING)
    (ht : s.tmr_count = 0)
    (hlo : -2147483648 ≤ s.led_data) (hhi : s.led_data < 2147483648) (k : Nat) :
    (ticks k s).tmr_count = ((k % (n * 8 + 1) : Nat) : Int)
    ∧ (ticks k s).led_data = wrap32 (s.led_data + ((k / (n * 8 + 1) : Nat) : Int)) := by
  induction k with
  | zero =>
    simp only [ticks, Nat.zero_mod, Nat.zero_div, Nat.cast_zero, add_zero]
    exact ⟨ht, (wrap32_of_range _ hlo hhi).symm⟩
  | succ k ih =>
    obtain ⟨ih1, ih2⟩ := ih
    obtain ⟨hd1, hn1⟩ := ticks_not_debouncing k s hd
    obtain ⟨-, -, -, e1, e2⟩ := TMR_not_debouncing (ticks k s) hd1
    rw [ticks_succ, e1, e2, ih1, ih2, hn1, hn]
    simp only [EXPIRATION_SCALE, wrap32_wrap32_add]
    interval_cases n <;> simp only [wrap32] <;> split <;> constructor <;> omega

/-- The roll-over formula at the default threshold, 24 ticks after start. -/
theorem tmr_rollover_period_witness :
    3 ≤ 3 ∧ 3 ≤ 7 ∧ (initState 0 0).n_expires = ((3 : Nat) : Int)
    ∧ (initState 0 0).dbn_state = DbnState.NOT_DEBOUNCING
    ∧ (initState 0 0).tmr_count = 0
    ∧ -2147483648 ≤ (initState 0 0).led_data ∧ (initState 0 0).led_data < 2147483648
    ∧ ((ticks 24 (initState 0 0)).tmr_count = ((24 % (3 * 8 + 1) : Nat) : Int)
      ∧ (ticks 24 (initState 0 0)).led_data
          = wrap32 ((initState 0 0).led_data + ((24 / (3 * 8 + 1) : Nat) : Int))) :=
  ⟨by decide, by decide, by decide, by decide, by decide, by decide, by decide,
    tmr_rollover_period (initState 0 0) 3 (by decide) (by decide) (by decide) (by decide)
      (by decide) (by decide) (by decide) 24⟩

/-- With the default threshold, 24 ticks after start nothing has rolled over
yet; the 25th tick increments `led_data` and clears the tick counter. -/
theorem tmr_rollover_default_evaluated :
    (ticks 24 (initState 0 0)).led_data = 0 ∧ (ticks 24 (initState 0 0)).tmr_count = 24
    ∧ (ticks 25 (initState 0 0)).led_data = 1 ∧ (ticks 25 (initState 0 0)).tmr_count = 0 := by
  decide

/-! ## C2: confirmed debounce -/

/-- Claim C2 as stated fails: with threshold 3 and the increment button
enabled, one press followed by a single expired tick leaves the threshold
at 3 and the state in `DEBOUNCING`. -/
theorem confirmed_debounce_one_tick_counterexample :
    ¬ (∀ (s : State) (n : Int) (status k : Nat),
        s.is_inc_enabled = IncEnabled.YES → s.n_expires = n → n < MAX_N_EXPIRES →
        status &&& BTN_INT = BTN_INT → 1 ≤ k →
        (ticks k (BTN_Intr_Handler s status BTN_INC_EXPIRES)).n_expires = n + 1
        ∧ (ticks k (BTN_Intr_Handler s status BTN_INC_EXPIRES)).dbn_state
            = DbnState.NOT_DEBOUNCING) := by
  intro h
  have h1 := h pressedState 3 1 1 (by decide) (by decide) (by decide) (by decide) (by decide)
  revert h1
  decide

/-- Claim C2, amended: for a state with the increment button enabled, a
threshold `n` with `0 < n < MAX_N_EXPIRES` and a matching interrupt status,
the button handler reading `BTN_INC_EXPIRES` followed by one expired tick
leaves `n_expires = n` in `DEBOUNCING`, and followed by `k` expired ticks, for
every `k ≥ 2`, yields `n_expires = n + 1` and `NOT_DEBOUNCING`. -/
theorem confirmed_debounce_needs_two_ticks (s : State) (n : Int) (status k : Nat)
    (hinc : s.is_inc_enabled = IncEnabled.YES) (hn : s.n_expires = n)
    (hpos : 0 < n) (hmax : n < MAX_N_EXPIRES)
    (hst : status &&& BTN_INT = BTN_INT) (hk : 2 ≤ k) :
    ((ticks 1 (BTN_Intr_Handler s status BTN_INC_EXPIRES)).n_expires = n
      ∧ (ticks 1 (BTN_Intr_Handler s status BTN_INC_EXPIRES)).dbn_state
          = DbnState.DEBOUNCING)
    ∧ (ticks k (BTN_Intr_Handler s status BTN_INC_EXPIRES)).n_expires = n + 1
    ∧ (ticks k (BTN_Intr_Handler s status BTN_INC_EXPIRES)).dbn_state
        = DbnState.NOT_DEBOUNCING := by
  have hmax7 : n < 7 := hmax
  have hne : s.n_expires ≠ MAX_N_EXPIRES := by
    rw [hn]; unfold MAX_N_EXPIRES; omega
  rw [BTN_enter_debouncing s status hst hinc hne]
  generalize hs1 : ({ s with
        btn_int_enabled := false
        btn_value := BTN_INC_EXPIRES
        dbn_state := DbnState.DEBOUNCING
        dbn_tmr_count := s.tmr_count } : State) = s1
  have d1 : s1.dbn_state = DbnState.DEBOUNCING := by rw [← hs1]
  have t1 : s1.tmr_count = s1.dbn_tmr_count := by rw [← hs1]
  have n1 : s1.n_expires = n := by rw [← hs1]; exact hn
  have b1 : s1.btn_value = BTN_INC_EXPIRES := by rw [← hs1]
  obtain ⟨d2, n2, c2, t2⟩ := TMR_debouncing_wait s1 d1 t1
  have b2 : (TMR_Intr_Handler s1 true).btn_value = BTN_INC_EXPIRES := by
    rw [TMR_btn_value]; exact b1
  have hne2 : (TMR_Intr_Handler s1 true).tmr_count
      ≠ (TMR_Intr_Handler s1 true).dbn_tmr_count := by
    rw [t2, c2, n1, ← t1]
    simp only [EXPIRATION_SCALE, wrap32]
    split <;> omega
  obtain ⟨d3, n3, -⟩ := TMR_debouncing_confirm _ d2 hne2 b2
  refine ⟨⟨?_, ?_⟩, ?_⟩
  · show (TMR_Intr_Handler s1 true).n_expires = n
    rw [n2, n1]
  · exact d2
  · obtain ⟨j, rfl⟩ : ∃ j, k = 2 + j := ⟨k - 2, by omega⟩
    rw [ticks_add]
    obtain ⟨d4, n4⟩ := ticks_not_debouncing j (ticks 2 s1) d3
    refine ⟨?_, d4⟩
    rw [n4]
    show (TMR_Intr_Handler (TMR_Intr_Handler s1 true) true).n_expires = n + 1
    rw [n3, n2, n1]
    unfold wrap32; omega

/-- The amended C2 at the default threshold, two ticks after the press. -/
theorem confirmed_debounce_needs_two_ticks_witness :
    pressedState.is_inc_enabled = IncEnabled.YES ∧ pressedState.n_expires = 3
    ∧ (0 : Int) < 3 ∧ (3 : Int) < MAX_N_EXPIRES ∧ 1 &&& BTN_INT = BTN_INT ∧ 2 ≤ 2
    ∧ (((ticks 1 (BTN_Intr_Handler pressedState 1 BTN_INC_EXPIRES)).n_expires = 3
        ∧ (ticks 1 (BTN_Intr_Handler pressedState 1 BTN_INC_EXPIRES)).dbn_state
            = DbnState.DEBOUNCING)
      ∧ (ticks 2 (BTN_Intr_Handler pressedState 1 BTN_INC_EXPIRES)).n_expires = 3 + 1
      ∧ (ticks 2 (BTN_Intr_Handler pressedState 1 BTN_INC_EXPIRES)).dbn_state
          = DbnState.NOT_DEBOUNCING) :=
  ⟨by decide, by decide, by decide, by decide, by decide, by decide,
    confirmed_debounce_needs_two_ticks pressedState 3 1 2 (by decide) (by decide) (by decide)
      (by decide) (by decide) (by decide)⟩

/-- With threshold 0 and tick counter 0 the tick counter never leaves the
count at which debouncing began, so the press is never confirmed: the
positivity of the threshold in the amended C2 is needed. -/
theorem debounce_stuck_at_zero_threshold (k : Nat) :
    zeroThresholdState.n_expires < MAX_N_EXPIRES
    ∧ (ticks k (BTN_Intr_Handler zeroThresholdState BTN_INT BTN_INC_EXPIRES)).dbn_state
        = DbnState.DEBOUNCING
    ∧ (ticks k (BTN_Intr_Handler zeroThresholdState BTN_INT BTN_INC_EXPIRES)).n_expires
        = 0 := by
  refine ⟨by decide, ?_⟩
  suffices h : ∀ (k : Nat) (s : State), s.dbn_state = DbnState.DEBOUNCING →
      s.tmr_count = 0 → s.dbn_tmr_count = 0 → s.n_expires = 0 →
      (ticks k s).dbn_state = DbnState.DEBOUNCING ∧ (ticks k s).n_expires = 0 from
    h k _ (by decide) (by decide) (by decide) (by decide)
  intro k
  induction k with
  | zero => intro s hd _ _ hn; exact ⟨hd, hn⟩
  | succ k ih =>
    intro s hd ht hc hn
    obtain ⟨d2, n2, c2, t2⟩ := TMR_debouncing_wait s hd (ht.trans hc.symm)
    refine ih (TMR_Intr_Handler s true) d2 ?_ (c2.trans hc) (n2.trans hn)
    rw [t2, ht, hn]
    decide

/-! ## C3: the threshold range -/

/-- Claim C3: in every state reachable from the initial state by any finite
interleaving of button interrupts, timer interrupts and polling-loop
iterations, with arbitrary hardware answers,
`DEFAULT_N_EXPIRES ≤ n_expires ≤ MAX_N_EXPIRES`. -/
theorem threshold_range_invariant (swc0 : Nat) (led0 : Int) (es : List Event) :
    DEFAULT_N_EXPIRES ≤ (run (initState swc0 led0) es).n_expires
    ∧ (run (initState swc0 led0) es).n_expires ≤ MAX_N_EXPIRES := by
  have h0 : ThresholdInv (initState swc0 led0) := by
    refine ⟨?_, ?_, ?_⟩ <;> simp [initState, DEFAULT_N_EXPIRES, MAX_N_EXPIRES]
  obtain ⟨h1, h2, -⟩ := ThresholdInv_run es _ h0
  exact ⟨h1, h2⟩

/-! ## C4: the reset branch and the debounce state -/

/-- Claim C4 as stated fails: from a reachable state in `DEBOUNCING` with
debounce marker 1, a loop iteration reading the disable switch leaves the
state in `DEBOUNCING`. -/
theorem reset_poll_cancels_debouncing_counterexample :
    ¬ (∀ (s : State) (w : Nat), s.dbn_state = DbnState.DEBOUNCING →
        w &&& SWC_DISABLE_BTNS = SWC_DISABLE_BTNS →
        (main_loop_body s w).dbn_state = DbnState.NOT_DEBOUNCING
        ∧ (main_loop_body s w).dbn_tmr_count = 0) := by
  intro h
  have h1 := h lateDebouncingState 1 (by decide) (by decide)
  revert h1
  decide

/-- Claim C4, amended: for every state in `DEBOUNCING`, one loop iteration
whose switch value has the `SWC_DISABLE_BTNS` bit set resets `n_expires` to
the default, `led_data` to 0 and disables the button interrupt, and leaves
`dbn_state = DEBOUNCING` and `dbn_tmr_count` as they were. -/
theorem reset_poll_keeps_debouncing (s : State) (w : Nat)
    (hd : s.dbn_state = DbnState.DEBOUNCING)
    (hw : w &&& SWC_DISABLE_BTNS = SWC_DISABLE_BTNS) :
    (main_loop_body s w).dbn_state = DbnState.DEBOUNCING
    ∧ (main_loop_body s w).dbn_tmr_count = s.dbn_tmr_count
    ∧ (main_loop_body s w).n_expires = DEFAULT_N_EXPIRES
    ∧ (main_loop_body s w).led_data = 0
    ∧ (main_loop_body s w).btn_int_enabled = false := by
  rw [main_loop_body_eq]
  simp [hw, hd]

/-- The amended C4 at a reachable debouncing state and switch word `0b0001`. -/
theorem reset_poll_keeps_debouncing_witness :
    lateDebouncingState.dbn_state = DbnState.DEBOUNCING
    ∧ 1 &&& SWC_DISABLE_BTNS = SWC_DISABLE_BTNS
    ∧ (main_loop_body lateDebouncingState 1).dbn_state = DbnState.DEBOUNCING
    ∧ (main_loop_body lateDebouncingState 1).dbn_tmr_count
        = lateDebouncingState.dbn_tmr_count :=
  have h := reset_poll_keeps_debouncing lateDebouncingState 1 (by decide) (by decide)
  ⟨by decide, by decide, h.1, h.2.1⟩

/-! ## C5: a transient press -/

/-- Claim C7: for every state and every switch value with the
`SWC_DISABLE_BTNS` bit set, one loop iteration yields
`n_expires = DEFAULT_N_EXPIRES`, `led_data = 0` and the button interrupt
disabled, and a second iteration with the same switch value returns exactly
the state the first one produced. -/
theorem reset_poll_idempotent (s : State) (w : Nat)
    (hw : w &&& SWC_DISABLE_BTNS = SWC_DISABLE_BTNS) :
    (main_loop_body s w).n_expires = DEFAULT_N_EXPIRES
    ∧ (main_loop_body s w).led_data = 0
    ∧ (main_loop_body s w).btn_int_enabled = false
    ∧ main_loop_body (main_loop_body s w) w = main_loop_body s w := by
  refine ⟨?_, ?_, ?_, ?_⟩
  · rw [main_loop_body_eq]; simp [hw]
  · rw [main_loop_body_eq]; simp [hw]
  · rw [main_loop_body_eq]; simp [hw]
  · rw [main_loop_body_eq (main_loop_body s w) w, main_loop_body_eq s w]
    simp only [hw, if_true]
    by_cases hD : w &&& SWC_ENABLE_INC_BTN = SWC_ENABLE_INC_BTN
    · simp [hD]
    · by_cases hE : w &&& SWC_ENABLE_INC_BTN = 0 <;> simp [hD, hE]

/-- Claim C7 at a reachable debouncing state and switch word `0b0011`. -/
theorem reset_poll_idempotent_witness :
    3 &&& SWC_DISABLE_BTNS = SWC_DISABLE_BTNS
    ∧ (main_loop_body lateDebouncingState 3).n_expires = DEFAULT_N_EXPIRES
    ∧ (main_loop_body lateDebouncingState 3).led_data = 0
    ∧ (main_loop_body lateDebouncingState 3).btn_int_enabled = false
    ∧ main_loop_body (main_loop_body lateDebouncingState 3) 3
        = main_loop_body lateDebouncingState 3 :=
  ⟨by decide, reset_poll_idempotent lateDebouncingState 3 (by decide)⟩

/-! ## C8: the bound of the tick counter -/

set_option maxRecDepth 100000 in
/-- Claim C8 fails on the code: the run that enables the increment button,
presses it, lets 25 ticks pass (the threshold becomes 4, the tick counter
25) and then reads the disable switch reaches `n_expires = 3` with
`tmr_count = 25 > 3 * 8`.  From there the equality test of the roll-over
never fires: 40 ticks later the tick counter is 65 and `led_data` is
still 0. -/
theorem tick_counter_bound_broken_by_reset :
    (run (initState 0 0) slowThenReset).tmr_count = 25
    ∧ (run (initState 0 0) slowThenReset).n_expires = 3
    ∧ ¬ ((run (initState 0 0) slowThenReset).tmr_count
          ≤ (run (initState 0 0) slowThenReset).n_expires * EXPIRATION_SCALE)
    ∧ (ticks 40 (run (initState 0 0) slowThenReset)).tmr_count = 65
    ∧ (ticks 40 (run (initState 0 0) slowThenReset)).led_data = 0 := by
  decide

/-- The bound of the tick counter holds along every run that never takes the
reset branch of the polling loop. -/
theorem tick_counter_bound_without_reset (swc0 : Nat) (led0 : Int) (es : List Event)
    (hr : ∀ e ∈ es, e.resets = false) :
    (run (initState swc0 led0) es).tmr_count
      ≤ (run (initState swc0 led0) es).n_expires * EXPIRATION_SCALE := by
  have h0 : CounterInv (initState swc0 led0) := by
    refine ⟨⟨?_, ?_, ?_⟩, ?_, ?_⟩ <;>
      simp [initState, DEFAULT_N_EXPIRES, MAX_N_EXPIRES, EXPIRATION_SCALE]
  suffices h : ∀ (es : List Event) (s : State), (∀ e ∈ es, e.resets = false) →
      CounterInv s → CounterInv (run s es) from (h es _ hr h0).2.2
  intro es
  induction es with
  | nil => intro s _ h; exact h
  | cons e es ih =>
    intro s hr h
    show CounterInv (run (step s e) es)
    exact ih _ (fun x hx => hr x (List.mem_cons_of_mem _ hx))
      (CounterInv_step s e (hr e (List.mem_cons_self _ _)) h)

/-! ## C9: a press at the maximum -/

/-- Claim C9: for every state with `n_expires = MAX_N_EXPIRES` and a matching
interrupt status, whatever `is_inc_enabled` is, the button handler reading
`BTN_INC_EXPIRES` leaves `dbn_state` and `dbn_tmr_count` unchanged and
`n_expires = MAX_N_EXPIRES`; when the state was `NOT_DEBOUNCING`, the
threshold is still `MAX_N_EXPIRES` after any number `k` of expired ticks. -/
theorem press_at_max_not_debounced (s : State) (status k : Nat)
    (hn : s.n_expires = MAX_N_EXPIRES) (hst : status &&& BTN_INT = BTN_INT) :
    (BTN_Intr_Handler s status BTN_INC_EXPIRES).dbn_state = s.dbn_state
    ∧ (BTN_Intr_Handler s status BTN_INC_EXPIRES).dbn_tmr_count = s.dbn_tmr_count
    ∧ (BTN_Intr_Handler s status BTN_INC_EXPIRES).n_expires = MAX_N_EXPIRES
    ∧ (s.dbn_state = DbnState.NOT_DEBOUNCING →
        (ticks k (BTN_Intr_Handler s status BTN_INC_EXPIRES)).n_expires = MAX_N_EXPIRES) := by
  rw [BTN_no_debounce s status BTN_INC_EXPIRES hst (fun h => h.2.2 hn)]
  refine ⟨rfl, rfl, hn, fun hd => ?_⟩
  rw [(ticks_not_debouncing k _ (by exact hd)).2]
  exact hn

/-- Claim C9 at a state with threshold 7, nine ticks after the press. -/
theorem press_at_max_not_debounced_witness :
    atMaxState.n_expires = MAX_N_EXPIRES ∧ 1 &&& BTN_INT = BTN_INT
    ∧ atMaxState.dbn_state = DbnState.NOT_DEBOUNCING
    ∧ (BTN_Intr_Handler atMaxState 1 BTN_INC_EXPIRES).dbn_state = atMaxState.dbn_state
    ∧ (BTN_Intr_Handler atMaxState 1 BTN_INC_EXPIRES).n_expires = MAX_N_EXPIRES
    ∧ (ticks 9 (BTN_Intr_Handler atMaxState 1 BTN_INC_EXPIRES)).n_expires = MAX_N_EXPIRES :=
  have h := press_at_max_not_debounced atMaxState 1 9 (by decide) (by decide)
  ⟨by decide, by decide, by decide, h.1, h.2.2.1, h.2.2.2 (by decide)⟩

/-! ## C10: a reset-encoded button value -/

/-- Claim C10 fails on the code: there is no button value other than
`BTN_INC_EXPIRES` that the button handler turns into `led_data = 0` from every
state.  The handler only ever adds the value read to `led_data`, so a value
that clears a count of 0 cannot clear a count of 1. -/
theorem no_reset_encoded_button_value :
    ¬ ∃ v : Int, v ≠ BTN_INC_EXPIRES ∧
        ∀ (s : State) (status : Nat), status &&& BTN_INT = BTN_INT →
          (BTN_Intr_Handler s status v).led_data = 0
          ∧ (BTN_Intr_Handler s status v).led_out = 0
          ∧ (BTN_Intr_Handler s status v).dbn_state = s.dbn_state := by
  rintro ⟨v, hv, h⟩
  have h0 := (h (initState 0 0) BTN_INT (by decide)).1
  have h1 := (h { initState 0 0 with led_data := 1 } BTN_INT (by decide)).1
  rw [BTN_no_debounce _ _ v (by decide) (fun c => hv c.2.1)] at h0 h1
  simp only [initState, wrap32] at h0 h1
  omega

/-! ## Supporting lemmas for the handlers as single transitions -/

/-- One expired tick, field by field. -/
theorem TMR_Intr_Handler_eq (s : State) :
    TMR_Intr_Handler s true =
      { s with
        dbn_state := if confirmsPress s then DbnState.NOT_DEBOUNCING else s.dbn_state
        n_expires := thresholdAfterCheck s
        btn_int_enabled := if confirmsPress s then true else s.btn_int_enabled
        tmr_count := if rollsOver s then 0 else wrap32 (s.tmr_count + 1)
        led_data := if rollsOver s then wrap32 (s.led_data + 1) else s.led_data
        led_out := if rollsOver s then wrap32 (s.led_data + 1) else s.led_out
        tmr_running := true } := by
  obtain ⟨ld, bv, tc, ne, ie, ds, dc, sv, lo, bi, tr⟩ := s
  unfold TMR_Intr_Handler checkDebounce countExpiration rollsOver thresholdAfterCheck
    confirmsPress
  cases ds <;> by_cases h1 : tc = dc <;> by_cases h2 : bv = BTN_INC_EXPIRES <;>
    simp only [h1, h2, ne_eq, not_true_eq_false, not_false_eq_true, if_true, if_false,
      and_true, and_false, false_and, true_and, reduceCtorEq] <;>
    split <;> rfl


theorem firesOnlyWhenEnabled_append (es fs : List Event) (s : State) :
    firesOnlyWhenEnabled s (es ++ fs)
      = (firesOnlyWhenEnabled s es && firesOnlyWhenEnabled (run s es) fs) := by
  induction es generalizing s with
  | nil => simp [firesOnlyWhenEnabled, run]
  | cons e es ih =>
    show ((match e with
            | Event.btn _ _ => s.btn_int_enabled
            | _ => true) && firesOnlyWhenEnabled (step s e) (es ++ fs)) = _
    rw [ih, ← Bool.and_assoc]
    rfl

theorem pollsKeepMask_of_no_poll (es : List Event) (s : State)
    (h : ∀ e ∈ es, e.isPoll = false) : pollsKeepMask s es = true := by
  induction es generalizing s with
  | nil => rfl
  | cons e es ih =>
    have he := h e (List.mem_cons_self _ _)
    have ht := ih (step s e) (fun x hx => h x (List.mem_cons_of_mem _ hx))
    cases e with
    | btn status v => simpa [pollsKeepMask] using ht
    | tmr expired => simpa [pollsKeepMask] using ht
    | poll w => simp [Event.isPoll] at he

theorem MaskInv_BTN (s : State) (status : Nat) (v : Int) (h : MaskInv s)
    (hen : s.btn_int_enabled = true) : MaskInv (BTN_Intr_Handler s status v) := by
  have hnd : s.dbn_state ≠ DbnState.DEBOUNCING := by
    intro hd
    have := (h hd).2
    rw [hen] at this
    exact absurd this (by decide)
  unfold BTN_Intr_Handler MaskInv
  simp only
  split
  · intro hd; exact absurd hd hnd
  · split
    · next hc => intro _; exact ⟨hc.2.1, rfl⟩
    · intro hd; exact absurd hd hnd

theorem MaskInv_TMR (s : State) (e : Bool) (h : MaskInv s) :
    MaskInv (TMR_Intr_Handler s e) := by
  cases e
  · exact h
  · rw [TMR_Intr_Handler_eq]
    unfold MaskInv
    simp only
    by_cases hc : confirmsPress s
    · simp [hc]
    · simp only [if_neg hc]
      exact h

theorem MaskInv_poll (s : State) (w : Nat) (h : MaskInv s)
    (hg : s.dbn_state = DbnState.NOT_DEBOUNCING ∨ s.swc_value = w
          ∨ w &&& SWC_DISABLE_BTNS ≠ 0) :
    MaskInv (main_loop_body s w) := by
  rw [main_loop_body_eq]
  unfold MaskInv
  simp only
  intro hd
  obtain ⟨h1, h2⟩ := h hd
  refine ⟨h1, ?_⟩
  have hno : ¬ (s.swc_value ≠ w ∧ w &&& SWC_DISABLE_BTNS = 0) := by
    rintro ⟨a, b⟩
    rcases hg with g | g | g
    · rw [hd] at g; exact absurd g (by decide)
    · exact a g
    · exact g b
  rw [if_neg hno, h2]
  split <;> rfl

theorem MaskInv_run (es : List Event) (s : State) (h : MaskInv s)
    (g1 : firesOnlyWhenEnabled s es = true) (g2 : pollsKeepMask s es = true) :
    MaskInv (run s es) := by
  induction es generalizing s with
  | nil => exact h
  | cons e es ih =>
    show MaskInv (run (step s e) es)
    cases e with
    | btn status v =>
      simp only [firesOnlyWhenEnabled, pollsKeepMask, Bool.and_eq_true, Bool.true_and] at g1 g2
      exact ih _ (MaskInv_BTN s status v h g1.1) g1.2 g2
    | tmr expired =>
      simp only [firesOnlyWhenEnabled, pollsKeepMask, Bool.true_and] at g1 g2
      exact ih _ (MaskInv_TMR s expired h) g1 g2
    | poll w =>
      simp only [firesOnlyWhenEnabled, pollsKeepMask, Bool.and_eq_true, Bool.true_and,
        decide_eq_true_eq] at g1 g2
      exact ih _ (MaskInv_poll s w h g2.1) g1 g2.2

theorem MaskInv_initState (swc0 : Nat) (led0 : Int) : MaskInv (initState swc0 led0) := by
  intro hd
  simp [initState] at hd

/-- Whether a loop iteration leaves the button interrupt enabled. -/
theorem main_loop_body_enables_iff (s : State) (w : Nat) :
    (main_loop_body s w).btn_int_enabled = true ↔
      w &&& SWC_DISABLE_BTNS ≠ SWC_DISABLE_BTNS
      ∧ ((s.swc_value ≠ w ∧ w &&& SWC_DISABLE_BTNS = 0) ∨ s.btn_int_enabled = true) := by
  rw [main_loop_body_eq]
  show (if w &&& SWC_DISABLE_BTNS = SWC_DISABLE_BTNS then false
        else if s.swc_value ≠ w ∧ w &&& SWC_DISABLE_BTNS = 0 then true
        else s.btn_int_enabled) = true ↔ _
  by_cases h1 : w &&& SWC_DISABLE_BTNS = SWC_DISABLE_BTNS
  · rw [if_pos h1]
    constructor
    · intro h; exact absurd h (by decide)
    · intro h; exact absurd h1 h.1
  · rw [if_neg h1]
    by_cases h2 : s.swc_value ≠ w ∧ w &&& SWC_DISABLE_BTNS = 0
    · rw [if_pos h2]
      exact ⟨fun _ => ⟨h1, Or.inl h2⟩, fun _ => rfl⟩
    · rw [if_neg h2]
      constructor
      · intro h; exact ⟨h1, Or.inr h⟩
      · rintro ⟨-, h | h⟩
        · exact absurd h h2
        · exact h

/-- A press still held is confirmed by the second expired tick at the latest,
and by the first when the tick counter has already moved on. -/
theorem ticks_resolve_held (s : State) (hd : s.dbn_state = DbnState.DEBOUNCING)
    (hb : s.btn_value = BTN_INC_EXPIRES) (hpos : 0 < s.n_expires)
    (hmax : s.n_expires ≤ MAX_N_EXPIRES) :
    (ticks 2 s).dbn_state = DbnState.NOT_DEBOUNCING
    ∧ (s.tmr_count ≠ s.dbn_tmr_count → (ticks 1 s).dbn_state = DbnState.NOT_DEBOUNCING) := by
  have hmax7 : s.n_expires ≤ 7 := hmax
  have hfirst : s.tmr_count ≠ s.dbn_tmr_count →
      (TMR_Intr_Handler s true).dbn_state = DbnState.NOT_DEBOUNCING :=
    fun ht => (TMR_debouncing_confirm s hd ht hb).1
  refine ⟨?_, hfirst⟩
  show (TMR_Intr_Handler (TMR_Intr_Handler s true) true).dbn_state = DbnState.NOT_DEBOUNCING
  by_cases ht : s.tmr_count = s.dbn_tmr_count
  · obtain ⟨d2, n2, c2, t2⟩ := TMR_debouncing_wait s hd ht
    have b2 : (TMR_Intr_Handler s true).btn_value = BTN_INC_EXPIRES := by
      rw [TMR_btn_value]; exact hb
    have hne2 : (TMR_Intr_Handler s true).tmr_count
        ≠ (TMR_Intr_Handler s true).dbn_tmr_count := by
      rw [t2, c2, ← ht]
      simp only [EXPIRATION_SCALE, wrap32]
      split <;> omega
    exact (TMR_debouncing_confirm _ d2 hne2 b2).1
  · exact (TMR_not_debouncing _ (hfirst ht)).1

/-! ## C11: the non-debounce path of the button handler -/

/-- Claim C11: for every state with a matching interrupt status and every
value `v` read such that not (`is_inc_enabled = YES` and
`v = BTN_INC_EXPIRES` and `n_expires ≠ MAX_N_EXPIRES`), the button handler
yields `btn_value = v`, `led_data` equal to the old `led_data` plus `v` in
32-bit int arithmetic, the LED output equal to the new `led_data`, the button
interrupt enabled, and `n_expires`, `tmr_count`, `dbn_state` and
`dbn_tmr_count` unchanged. -/
theorem button_non_debounce_path (s : State) (status : Nat) (v : Int)
    (hst : status &&& BTN_INT = BTN_INT)
    (hno : ¬ (s.is_inc_enabled = IncEnabled.YES ∧ v = BTN_INC_EXPIRES
              ∧ s.n_expires ≠ MAX_N_EXPIRES)) :
    (BTN_Intr_Handler s status v).btn_value = v
    ∧ (BTN_Intr_Handler s status v).led_data = wrap32 (s.led_data + v)
    ∧ (BTN_Intr_Handler s status v).led_out = (BTN_Intr_Handler s status v).led_data
    ∧ (BTN_Intr_Handler s status v).btn_int_enabled = true
    ∧ (BTN_Intr_Handler s status v).n_expires = s.n_expires
    ∧ (BTN_Intr_Handler s status v).tmr_count = s.tmr_count
    ∧ (BTN_Intr_Handler s status v).dbn_state = s.dbn_state
    ∧ (BTN_Intr_Handler s status v).dbn_tmr_count = s.dbn_tmr_count := by
  rw [BTN_no_debounce s status v hst hno]
  exact ⟨rfl, rfl, rfl, rfl, rfl, rfl, rfl, rfl⟩

/-- Claim C11 at the state with the increment button enabled, reading `0b0001`. -/
theorem button_non_debounce_path_witness :
    1 &&& BTN_INT = BTN_INT
    ∧ ¬ (pressedState.is_inc_enabled = IncEnabled.YES ∧ (1 : Int) = BTN_INC_EXPIRES
          ∧ pressedState.n_expires ≠ MAX_N_EXPIRES)
    ∧ (BTN_Intr_Handler pressedState 1 1).btn_value = 1
    ∧ (BTN_Intr_Handler pressedState 1 1).led_data = wrap32 (pressedState.led_data + 1)
    ∧ (BTN_Intr_Handler pressedState 1 1).led_out = (BTN_Intr_Handler pressedState 1 1).led_data
    ∧ (BTN_Intr_Handler pressedState 1 1).btn_int_enabled = true
    ∧ (BTN_Intr_Handler pressedState 1 1).n_expires = pressedState.n_expires
    ∧ (BTN_Intr_Handler pressedState 1 1).tmr_count = pressedState.tmr_count
    ∧ (BTN_Intr_Handler pressedState 1 1).dbn_state = pressedState.dbn_state
    ∧ (BTN_Intr_Handler pressedState 1 1).dbn_tmr_count = pressedState.dbn_tmr_count :=
  ⟨by decide, by decide, button_non_debounce_path pressedState 1 1 (by decide) (by decide)⟩

/-! ## C12: the debounce-entry path of the button handler -/

/-- Claim C12: for every state with a matching interrupt status,
`is_inc_enabled = YES` and `n_expires ≠ MAX_N_EXPIRES`, the button handler
reading `BTN_INC_EXPIRES` yields `dbn_state = DEBOUNCING` with
`dbn_tmr_count = tmr_count`, leaves `led_data`, the LED output, `n_expires`
and `tmr_count` unchanged, and leaves the button interrupt disabled. -/
theorem button_debounce_entry_path (s : State) (status : Nat)
    (hst : status &&& BTN_INT = BTN_INT) (hinc : s.is_inc_enabled = IncEnabled.YES)
    (hmax : s.n_expires ≠ MAX_N_EXPIRES) :
    (BTN_Intr_Handler s status BTN_INC_EXPIRES).dbn_state = DbnState.DEBOUNCING
    ∧ (BTN_Intr_Handler s status BTN_INC_EXPIRES).dbn_tmr_count = s.tmr_count
    ∧ (BTN_Intr_Handler s status BTN_INC_EXPIRES).led_data = s.led_data
    ∧ (BTN_Intr_Handler s status BTN_INC_EXPIRES).led_out = s.led_out
    ∧ (BTN_Intr_Handler s status BTN_INC_EXPIRES).n_expires = s.n_expires
    ∧ (BTN_Intr_Handler s status BTN_INC_EXPIRES).tmr_count = s.tmr_count
    ∧ (BTN_Intr_Handler s status BTN_INC_EXPIRES).btn_int_enabled = false := by
  rw [BTN_enter_debouncing s status hst hinc hmax]
  exact ⟨rfl, rfl, rfl, rfl, rfl, rfl, rfl⟩

/-- Claim C12 at a reachable state one tick after the increment button was
enabled. -/
theorem button_debounce_entry_path_witness :
    1 &&& BTN_INT = BTN_INT
    ∧ (TMR_Intr_Handler pressedState true).is_inc_enabled = IncEnabled.YES
    ∧ (TMR_Intr_Handler pressedState true).n_expires ≠ MAX_N_EXPIRES
    ∧ (BTN_Intr_Handler (TMR_Intr_Handler pressedState true) 1 BTN_INC_EXPIRES).dbn_state
        = DbnState.DEBOUNCING
    ∧ (BTN_Intr_Handler (TMR_Intr_Handler pressedState true) 1 BTN_INC_EXPIRES).dbn_tmr_count
        = 1
    ∧ (BTN_Intr_Handler (TMR_Intr_Handler pressedState true) 1
          BTN_INC_EXPIRES).btn_int_enabled = false :=
  have h := button_debounce_entry_path (TMR_Intr_Handler pressedState true) 1
    (by decide) (by decide) (by decide)
  ⟨by decide, by decide, by decide, h.1, h.2.1, h.2.2.2.2.2.2⟩

/-! ## C13: when the polling loop re-enables the button interrupt -/

/-- Claim C13 fails on the code: with a press being debounced (button
interrupt disabled, stored switch word `0b0010`, so the `SWC_DISABLE_BTNS`
bit was already clear), a loop iteration that reads `0b0000`, where only the
`SWC_ENABLE_INC_BTN` bit changes, enables the button interrupt. -/
theorem poll_enables_on_inc_switch_change :
    (BTN_Intr_Handler pressedState BTN_INT BTN_INC_EXPIRES).btn_int_enabled = false
    ∧ (BTN_Intr_Handler pressedState BTN_INT BTN_INC_EXPIRES).swc_value
        &&& SWC_DISABLE_BTNS = 0
    ∧ 0 &&& SWC_DISABLE_BTNS = 0
    ∧ (main_loop_body (BTN_Intr_Handler pressedState BTN_INT BTN_INC_EXPIRES) 0).btn_int_enabled
        = true := by
  decide

/-! ## C14: a spurious button interrupt -/

/-- Claim C14: for every state, when the interrupt status read does not have
the `BTN_INT` bit set, the button handler returns the state it was given
with the button interrupt disabled; `btn_value`, `led_data`, the LED output,
`n_expires`, `tmr_count`, `dbn_state`, `dbn_tmr_count` and `is_inc_enabled`
are unchanged. -/
theorem spurious_button_interrupt (s : State) (status : Nat) (v : Int)
    (hst : status &&& BTN_INT ≠ BTN_INT) :
    BTN_Intr_Handler s status v = { s with btn_int_enabled := false } := by
  unfold BTN_Intr_Handler
  simp only
  rw [if_pos hst]

/-- Claim C14 at the initial state with an empty status word. -/
theorem spurious_button_interrupt_witness :
    0 &&& BTN_INT ≠ BTN_INT
    ∧ BTN_Intr_Handler (initState 0 0) 0 5 = { initState 0 0 with btn_int_enabled := false } :=
  ⟨by decide, spurious_button_interrupt (initState 0 0) 0 5 (by decide)⟩

/-! ## C15: a missed timer-expired flag -/

/-- Claim C15: for every state, when the timer-expired query returns false the
timer handler returns the state unchanged, in every field of the shared
state, the LED output, the interrupt enable and the running state of the
timer. -/
theorem missed_timer_flag (s : State) : TMR_Intr_Handler s false = s := by
  unfold TMR_Intr_Handler
  simp

/-! ## C16: one expired tick -/

/-- Claim C16: for every state, an expired timer interrupt first runs the
debounce check: if `dbn_state = DEBOUNCING`, `tmr_count ≠ dbn_tmr_count` and
`btn_value = BTN_INC_EXPIRES` then `dbn_state` becomes `NOT_DEBOUNCING`,
`n_expires` becomes `n_expires + 1` and the button interrupt is enabled,
otherwise the three are unchanged; then, with the possibly updated
`n_expires`, if `tmr_count = n_expires * 8` it sets `tmr_count` to 0 and
`led_data` to `led_data + 1` (also written to the LEDs), else it sets
`tmr_count` to `tmr_count + 1` and leaves `led_data` unchanged. -/
theorem expired_tick_transition (s : State) :
    (TMR_Intr_Handler s true).dbn_state
        = (if s.dbn_state = DbnState.DEBOUNCING ∧ s.tmr_count ≠ s.dbn_tmr_count
              ∧ s.btn_value = BTN_INC_EXPIRES
            then DbnState.NOT_DEBOUNCING else s.dbn_state)
    ∧ (TMR_Intr_Handler s true).n_expires
        = (if s.dbn_state = DbnState.DEBOUNCING ∧ s.tmr_count ≠ s.dbn_tmr_count
              ∧ s.btn_value = BTN_INC_EXPIRES
            then wrap32 (s.n_expires + 1) else s.n_expires)
    ∧ (TMR_Intr_Handler s true).btn_int_enabled
        = (if s.dbn_state = DbnState.DEBOUNCING ∧ s.tmr_count ≠ s.dbn_tmr_count
              ∧ s.btn_value = BTN_INC_EXPIRES
            then true else s.btn_int_enabled)
    ∧ (TMR_Intr_Handler s true).tmr_count
        = (if s.tmr_count = wrap32 ((TMR_Intr_Handler s true).n_expires * EXPIRATION_SCALE)
            then 0 else wrap32 (s.tmr_count + 1))
    ∧ (TMR_Intr_Handler s true).led_data
        = (if s.tmr_count = wrap32 ((TMR_Intr_Handler s true).n_expires * EXPIRATION_SCALE)
            then wrap32 (s.led_data + 1) else s.led_data)
    ∧ (TMR_Intr_Handler s true).led_out
        = (if s.tmr_count = wrap32 ((TMR_Intr_Handler s true).n_expires * EXPIRATION_SCALE)
            then wrap32 (s.led_data + 1) else s.led_out) := by
  rw [TMR_Intr_Handler_eq]
  exact ⟨rfl, rfl, rfl, rfl, rfl, rfl⟩

/-! ## C17: debouncing and the input snapshot -/

/-- Claim C17 as stated fails: the button is pressed, the buttons are switched
off and on again before any tick, and a second button interrupt, taken with
the interrupt enabled, reads `0b0001`; the state is still `DEBOUNCING` and the
input snapshot is 1. -/
theorem debouncing_snapshot_counterexample :
    ¬ (∀ (swc0 : Nat) (led0 : Int) (es : List Event),
        firesOnlyWhenEnabled (initState swc0 led0) es = true →
        (run (initState swc0 led0) es).dbn_state = DbnState.DEBOUNCING →
        (run (initState swc0 led0) es).btn_value = BTN_INC_EXPIRES) := by
  intro h
  have h1 := h 0 0 offOnWhileDebouncing (by decide) (by decide)
  revert h1
  decide

/-- Claim C17, amended: in every state reachable from the initial state by a
finite interleaving of button interrupts (taken only while the button
interrupt is enabled), timer interrupts and loop iterations, none of which
re-enables the button interrupt while a press is being debounced,
`dbn_state = DEBOUNCING` implies `btn_value = BTN_INC_EXPIRES`. -/
theorem debouncing_snapshot_while_masked (swc0 : Nat) (led0 : Int) (es : List Event)
    (g1 : firesOnlyWhenEnabled (initState swc0 led0) es = true)
    (g2 : pollsKeepMask (initState swc0 led0) es = true)
    (hd : (run (initState swc0 led0) es).dbn_state = DbnState.DEBOUNCING) :
    (run (initState swc0 led0) es).btn_value = BTN_INC_EXPIRES :=
  (MaskInv_run es _ (MaskInv_initState swc0 led0) g1 g2 hd).1

/-- The amended C17 on the run that enables the increment button, presses it
and lets one tick pass. -/
theorem debouncing_snapshot_while_masked_witness :
    firesOnlyWhenEnabled (initState 0 0)
        [Event.poll 2, Event.btn 1 BTN_INC_EXPIRES, Event.tmr true] = true
    ∧ pollsKeepMask (initState 0 0)
        [Event.poll 2, Event.btn 1 BTN_INC_EXPIRES, Event.tmr true] = true
    ∧ (run (initState 0 0)
        [Event.poll 2, Event.btn 1 BTN_INC_EXPIRES, Event.tmr true]).dbn_state
        = DbnState.DEBOUNCING
    ∧ (run (initState 0 0)
        [Event.poll 2, Event.btn 1 BTN_INC_EXPIRES, Event.tmr true]).btn_value
        = BTN_INC_EXPIRES :=
  ⟨by decide, by decide, by decide,
    debouncing_snapshot_while_masked 0 0
      [Event.poll 2, Event.btn 1 BTN_INC_EXPIRES, Event.tmr true]
      (by decide) (by decide) (by decide)⟩

/-! ## C18: how long debouncing lasts -/

/-- Claim C18 as stated fails: in the reachable state of C17, with the input
snapshot at 1, no number of expired ticks up to two (or beyond) leaves
`DEBOUNCING`. -/
theorem debouncing_persists_counterexample :
    ¬ (∀ s : State, s.dbn_state = DbnState.DEBOUNCING →
        ∃ j : Nat, j ≤ 2 ∧ (ticks j s).dbn_state = DbnState.NOT_DEBOUNCING) := by
  intro h
  obtain ⟨j, -, hj⟩ := h (run (initState 0 0) offOnWhileDebouncing) (by decide)
  rw [(ticks_released j _ (by decide)).2] at hj
  revert hj
  decide

/-- Claim C18, amended: for every state with `dbn_state = DEBOUNCING` and a
threshold between 1 and `MAX_N_EXPIRES`, if `btn_value = BTN_INC_EXPIRES` the
machine is in `NOT_DEBOUNCING` after every number `k ≥ 2` of consecutive
expired ticks, and already after every `k ≥ 1` when `tmr_count` differs from
`dbn_tmr_count`; if `btn_value` is any other value the machine is still in
`DEBOUNCING` after every number `k` of expired ticks. -/
theorem debouncing_resolves_only_while_held (s : State) (k : Nat)
    (hd : s.dbn_state = DbnState.DEBOUNCING) (hpos : 0 < s.n_expires)
    (hmax : s.n_expires ≤ MAX_N_EXPIRES) :
    (s.btn_value = BTN_INC_EXPIRES → 2 ≤ k →
        (ticks k s).dbn_state = DbnState.NOT_DEBOUNCING)
    ∧ (s.btn_value = BTN_INC_EXPIRES → s.tmr_count ≠ s.dbn_tmr_count → 1 ≤ k →
        (ticks k s).dbn_state = DbnState.NOT_DEBOUNCING)
    ∧ (s.btn_value ≠ BTN_INC_EXPIRES → (ticks k s).dbn_state = DbnState.DEBOUNCING) := by
  refine ⟨fun hb hk => ?_, fun hb ht hk => ?_, fun hb => ?_⟩
  · obtain ⟨j, rfl⟩ : ∃ j, k = 2 + j := ⟨k - 2, by omega⟩
    rw [ticks_add]
    exact (ticks_not_debouncing j _ (ticks_resolve_held s hd hb hpos hmax).1).1
  · obtain ⟨j, rfl⟩ : ∃ j, k = 1 + j := ⟨k - 1, by omega⟩
    rw [ticks_add]
    exact (ticks_not_debouncing j _ ((ticks_resolve_held s hd hb hpos hmax).2 ht)).1
  · rw [(ticks_released k s hb).2]
    exact hd

/-- The amended C18 at a reachable press, two ticks later. -/
theorem debouncing_resolves_only_while_held_witness :
    (BTN_Intr_Handler pressedState 1 BTN_INC_EXPIRES).dbn_state = DbnState.DEBOUNCING
    ∧ 0 < (BTN_Intr_Handler pressedState 1 BTN_INC_EXPIRES).n_expires
    ∧ (BTN_Intr_Handler pressedState 1 BTN_INC_EXPIRES).n_expires ≤ MAX_N_EXPIRES
    ∧ (BTN_Intr_Handler pressedState 1 BTN_INC_EXPIRES).btn_value = BTN_INC_EXPIRES
    ∧ (ticks 2 (BTN_Intr_Handler pressedState 1 BTN_INC_EXPIRES)).dbn_state
        = DbnState.NOT_DEBOUNCING :=
  ⟨by decide, by decide, by decide, by decide,
    (debouncing_resolves_only_while_held (BTN_Intr_Handler pressedState 1 BTN_INC_EXPIRES) 2
      (by decide) (by decide) (by decide)).1 (by decide) (by decide)⟩

/-! ## C19: self-masking of the two handlers -/

/-- Claim C19: from a state in `NOT_DEBOUNCING` (as the initial state is), after
any finite sequence of button interrupts, each taken only while the button
interrupt is enabled, and timer interrupts, with no loop iteration,
`dbn_state = DEBOUNCING` implies that the button interrupt is disabled; hence
no button interrupt can be taken in `DEBOUNCING`: a sequence that goes on
with one leaves a state in `NOT_DEBOUNCING` before it. -/
theorem handlers_self_masking (s0 : State) (es : List Event)
    (h0 : s0.dbn_state = DbnState.NOT_DEBOUNCING)
    (hp : ∀ e ∈ es, e.isPoll = false)
    (g1 : firesOnlyWhenEnabled s0 es = true) :
    ((run s0 es).dbn_state = DbnState.DEBOUNCING → (run s0 es).btn_int_enabled = false)
    ∧ ∀ (status : Nat) (v : Int),
        firesOnlyWhenEnabled s0 (es ++ [Event.btn status v]) = true →
        (run s0 es).dbn_state = DbnState.NOT_DEBOUNCING := by
  have hm0 : MaskInv s0 := by
    intro hd
    rw [h0] at hd
    exact absurd hd (by decide)
  have hm := MaskInv_run es s0 hm0 g1 (pollsKeepMask_of_no_poll es s0 hp)
  refine ⟨fun hd => (hm hd).2, fun status v hg => ?_⟩
  rw [firesOnlyWhenEnabled_append] at hg
  have hen : (run s0 es).btn_int_enabled = true := by
    simpa [firesOnlyWhenEnabled, g1] using hg
  cases hd : (run s0 es).dbn_state with
  | NOT_DEBOUNCING => rfl
  | DEBOUNCING =>
    have := (hm hd).2
    rw [hen] at this
    exact absurd this (by decide)

/-- Claim C19 on a press followed by one tick, from the state with the
increment button enabled. -/
theorem handlers_self_masking_witness :
    pressedState.dbn_state = DbnState.NOT_DEBOUNCING
    ∧ (∀ e ∈ [Event.btn 1 BTN_INC_EXPIRES, Event.tmr true], e.isPoll = false)
    ∧ firesOnlyWhenEnabled pressedState [Event.btn 1 BTN_INC_EXPIRES, Event.tmr true] = true
    ∧ (run pressedState [Event.btn 1 BTN_INC_EXPIRES, Event.tmr true]).dbn_state
        = DbnState.DEBOUNCING
    ∧ (run pressedState [Event.btn 1 BTN_INC_EXPIRES, Event.tmr true]).btn_int_enabled
        = false :=
  ⟨by decide, by decide, by decide, by decide,
    (handlers_self_masking pressedState [Event.btn 1 BTN_INC_EXPIRES, Event.tmr true]
      (by decide) (by decide) (by decide)).1 (by decide)⟩

/-- The self-masking invariant on the runs of the initial state itself: with
no loop iteration `is_inc_enabled` stays `NO`, and the invariant holds. -/
theorem self_masking_from_initState (swc0 : Nat) (led0 : Int) (es : List Event)
    (hp : ∀ e ∈ es, e.isPoll = false)
    (g1 : firesOnlyWhenEnabled (initState swc0 led0) es = true)
    (hd : (run (initState swc0 led0) es).dbn_state = DbnState.DEBOUNCING) :
    (run (initState swc0 led0) es).btn_int_enabled = false :=
  (MaskInv_run es _ (MaskInv_initState swc0 led0) g1
    (pollsKeepMask_of_no_poll es _ hp) hd).2

/-- Without a loop iteration the increment button is never enabled, so no run
of the initial state made of button and timer interrupts alone ever enters
`DEBOUNCING`. -/
theorem no_debouncing_without_poll (swc0 : Nat) (led0 : Int) (es : List Event)
    (hp : ∀ e ∈ es, e.isPoll = false) :
    (run (initState swc0 led0) es).dbn_state = DbnState.NOT_DEBOUNCING := by
  suffices h : ∀ (es : List Event) (s : State), (∀ e ∈ es, e.isPoll = false) →
      s.is_inc_enabled = IncEnabled.NO → s.dbn_state = DbnState.NOT_DEBOUNCING →
      (run s es).dbn_state = DbnState.NOT_DEBOUNCING from h es _ hp rfl rfl
  intro es
  induction es with
  | nil => intro s _ _ hd; exact hd
  | cons e es ih =>
    intro s hp hi hd
    show (run (step s e) es).dbn_state = DbnState.NOT_DEBOUNCING
    have hp2 : ∀ x ∈ es, x.isPoll = false := fun x hx => hp x (List.mem_cons_of_mem _ hx)
    have he := hp e (List.mem_cons_self _ _)
    cases e with
    | btn status v =>
      refine ih _ hp2 ?_ ?_
      · show (BTN_Intr_Handler s status v).is_inc_enabled = IncEnabled.NO
        unfold BTN_Intr_Handler
        simp only [hi]
        split
        · rfl
        · split <;> rfl
      · show (BTN_Intr_Handler s status v).dbn_state = DbnState.NOT_DEBOUNCING
        unfold BTN_Intr_Handler
        simp only [hi, reduceCtorEq, false_and, if_false]
        split <;> exact hd
    | tmr expired =>
      refine ih _ hp2 ?_ ?_
      · show (TMR_Intr_Handler s expired).is_inc_enabled = IncEnabled.NO
        cases expired
        · exact hi
        · rw [TMR_Intr_Handler_eq]; exact hi
      · show (TMR_Intr_Handler s expired).dbn_state = DbnState.NOT_DEBOUNCING
        cases expired
        · exact hd
        · exact (TMR_not_debouncing s hd).1
    | poll w => simp [Event.isPoll] at he

end InterruptCounter
